import Mathlib

/-!
Shallow embedding of the portfolio backend (`src/index.mjs`) and proofs about
its specified behaviour.

The external store (Supabase/PostgREST) is modelled as an explicit in-memory
database state `DB`; each Express handler becomes a pure function from the
request data and a `DB` to a response and an updated `DB`.  Store calls that
the handlers issue are translated one-for-one:

* `.select(...).eq(col, v)`            → `List.filter` on the table;
* `.order("order_index", asc)`         → `sortByKey (·.order_index)`
  (modelled with `List.insertionSort`);
* `.order(desc).limit(1).maybeSingle()`→ head of the descending sort;
* `.maybeSingle()` after `.eq("id",…)` / `.eq("user_id",…)` → `List.find?`
  (the columns carry unique constraints, so at most one row matches);
* `.insert(...)`                       → append, with fresh serial ids taken
  from `DB.nextId`;
* `.update(...).eq(...).eq(...)`       → `List.map` guarded by the filters;
* `.delete().eq(...)`                  → `List.filter` with negated condition.

Network errors of the store are outside the model (handlers are analysed on
the store's non-error path, which is what the claims quantify over); the one
place where an external error is itself the specified observable — the
password-reset request — takes that error as an explicit boolean input.

JavaScript-value conventions: a request-body field that may be absent
(`undefined`) is an `Option`; the JS truthiness test `!x` on a string field
is `jsFalsyStr`; the null-coercion idiom `x || null` is `jsOrNull`.
-/

/-- Row of the `profiles` table. -/
structure Profile where
  id : Nat
  user_id : Nat
  first_name : String
  last_name : String
  about : String
  avatar_url : Option String
  is_featured : Bool
deriving DecidableEq

/-- Row of the `experiences` table. -/
structure Experience where
  id : Nat
  profile_id : Nat
  company : String
  position : String
  start_date : Option String
  end_date : Option String
  description : Option String
  order_index : Int
deriving DecidableEq

/-- Row of the `projects` table. -/
structure Project where
  id : Nat
  profile_id : Nat
  title : String
  subtitle : Option String
  cover_image_url : Option String
  order_index : Int
deriving DecidableEq

/-- Row of the `project_parts` table. -/
structure ProjectPart where
  id : Nat
  project_id : Nat
  title : Option String
  content : Option String
  image_url : Option String
  link_url : Option String
  kind : Option String
  order_index : Int
deriving DecidableEq

/-- The external store: the four tables plus a serial-id counter. -/
structure DB where
  profiles : List Profile
  experiences : List Experience
  projects : List Project
  project_parts : List ProjectPart
  nextId : Nat
deriving DecidableEq

/-- JS truthiness test `!x` for an optional string field: `undefined`/`null`
(`none`) and the empty string are falsy. -/
def jsFalsyStr : Option String → Bool
  | none => true
  | some s => s == ""

/-- The JS idiom `x || null` on an optional string: empty string collapses to
`null`, everything else is kept. -/
def jsOrNull : Option String → Option String
  | none => none
  | some s => if s == "" then none else some s

/-- The JS `s.startsWith(pre)` test, computed structurally on the character
lists of the strings. -/
def strStartsWith (s pre : String) : Bool :=
  pre.data.isPrefixOf s.data

/-- Split a character list at every occurrence of `sep`, keeping empty
segments, as JS `split` does. -/
def splitChars (sep : Char) : List Char → List (List Char)
  | [] => [[]]
  | c :: cs =>
    let r := splitChars sep cs
    if c == sep then [] :: r
    else
      match r with
      | [] => [[c]]
      | g :: gs => (c :: g) :: gs

/-- The JS `s.split(" ")` call: split on every single space, empty segments
preserved. -/
def jsSplitSpace (s : String) : List String :=
  (splitChars ' ' s.data).map (fun cs => { data := cs })

/-- Ascending sort by an integer key: the model of the store's
`.order(col, { ascending: true })`. -/
def sortByKey {α : Type} (key : α → Int) (l : List α) : List α :=
  List.insertionSort (fun a b => key a ≤ key b) l

theorem sortByKey_pairwise {α : Type} (key : α → Int) (l : List α) :
    List.Pairwise (fun a b => key a ≤ key b) (sortByKey key l) := by
  haveI : IsTotal α (fun a b => key a ≤ key b) := ⟨fun a b => le_total (key a) (key b)⟩
  haveI : IsTrans α (fun a b => key a ≤ key b) := ⟨fun _ _ _ h1 h2 => le_trans h1 h2⟩
  exact List.sorted_insertionSort _ l

theorem sortByKey_perm {α : Type} (key : α → Int) (l : List α) :
    (sortByKey key l).Perm l :=
  List.perm_insertionSort _ l

theorem sortByKey_mem {α : Type} (key : α → Int) (l : List α) (a : α) :
    a ∈ sortByKey key l ↔ a ∈ l :=
  (sortByKey_perm key l).mem_iff

/-- Model of `.select("order_index").order(desc).limit(1).maybeSingle()`:
the head of the descending sort of the scoped key column, i.e. a maximal
element when the scope is non-empty. -/
def lastOrderIndex (keys : List Int) : Option Int :=
  (sortByKey (fun k => -k) keys).head?

theorem lastOrderIndex_nil : lastOrderIndex [] = none := rfl

theorem lastOrderIndex_spec (keys : List Int) (h : keys ≠ []) :
    ∃ m, lastOrderIndex keys = some m ∧ m ∈ keys ∧ ∀ k ∈ keys, k ≤ m := by
  have hne : sortByKey (fun k => -k) keys ≠ [] := by
    intro hnil
    apply h
    have hp := (sortByKey_perm (fun k => -k) keys).symm
    rw [hnil] at hp
    exact hp.eq_nil
  obtain ⟨m, tl, heq⟩ := List.exists_cons_of_ne_nil hne
  refine ⟨m, ?_, ?_, ?_⟩
  · simp [lastOrderIndex, heq]
  · have : m ∈ sortByKey (fun k => -k) keys := by simp [heq]
    exact (sortByKey_mem _ _ _).mp this
  · intro k hk
    have hk' : k ∈ sortByKey (fun k => -k) keys := (sortByKey_mem _ _ _).mpr hk
    rw [heq] at hk'
    rcases List.mem_cons.mp hk' with rfl | hk'
    · exact le_refl _
    · have hp := sortByKey_pairwise (fun k => -k) keys
      rw [heq] at hp
      have := (List.pairwise_cons.mp hp).1 k hk'
      omega

/-- Generic HTTP handler outcome: an error status with message, or a status
with a typed body. -/
inductive HandlerResult (α : Type) where
  | fail (status : Nat) (msg : String)
  | ok (status : Nat) (body : α)
deriving DecidableEq

/-- Response of the delete handlers, which on the store's non-error path is
always `200 {success:true}`. -/
structure SimpleResp where
  status : Nat
  success : Bool
deriving DecidableEq

/-- Helper `getOrCreateProfileByUserId` (index.mjs:49-83): look the profile up
by `user_id`; when absent, insert a fresh row with empty `first_name`,
`last_name` and `about`, and return the inserted row. -/
def getOrCreateProfileByUserId (db : DB) (userId : Nat) : Profile × DB :=
  match db.profiles.find? (fun p => p.user_id == userId) with
  | some profile => (profile, db)
  | none =>
    let inserted : Profile :=
      { id := db.nextId, user_id := userId, first_name := "", last_name := "",
        about := "", avatar_url := none, is_featured := false }
    (inserted, { db with profiles := db.profiles ++ [inserted], nextId := db.nextId + 1 })

/-- Resolved principal attached to the request by the auth guard. -/
structure AuthUser where
  id : Nat
  email : String
deriving DecidableEq

/-- Outcome of the auth guard: denial with an HTTP status, or the principal
attached to the request context. -/
inductive AuthResult where
  | denied (status : Nat)
  | granted (user : AuthUser)
deriving DecidableEq

/-- Middleware `requireAuth` (index.mjs:86-103).  `authHeader` is the
`Authorization` header (`""` when absent, matching `req.headers.authorization
|| ""`); `getUser` models `supabase.auth.getUser`, returning `none` on
rejection or absent principal.  The second component lists the tokens actually
presented to the external auth service, so `[]` means no store call was made. -/
def requireAuth (authHeader : String) (getUser : String → Option AuthUser) :
    AuthResult × List String :=
  if ! strStartsWith authHeader "Bearer " then
    (.denied 401, [])
  else
    let token := (jsSplitSpace authHeader).getD 1 ""
    match getUser token with
    | none => (.denied 401, [token])
    | some u => (.granted u, [token])

/-- Request body of `POST`/`PUT /api/me/experiences`; `none` marks a field
absent from the JSON body (`undefined` after destructuring). -/
structure ExperienceBody where
  company : Option String
  position : Option String
  start_date : Option String
  end_date : Option String
  description : Option String
  order_index : Option Int
deriving DecidableEq

/-- One element of the `parts` array in a project request body. -/
structure PartInput where
  title : Option String
  content : Option String
  image_url : Option String
  link_url : Option String
  kind : Option String
  order_index : Option Int
deriving DecidableEq

/-- Request body of `POST`/`PUT /api/me/projects`; `parts = none` models a
body whose `parts` field is absent or not an array (`Array.isArray` false). -/
structure ProjectBody where
  title : Option String
  subtitle : Option String
  cover_image_url : Option String
  order_index : Option Int
  parts : Option (List PartInput)
deriving DecidableEq

/-- The order-index computation shared by the create handlers
(index.mjs:776-795 and 1120-1139): keep an explicitly numeric `order_index`
from the body; otherwise take the scope's maximum `order_index` plus one,
defaulting to `1` when the scope is empty. -/
def nextOrderIndex (supplied : Option Int) (scopeKeys : List Int) : Int :=
  match supplied with
  | some n => n
  | none =>
    match lastOrderIndex scopeKeys with
    | some m => m + 1
    | none => 1

/-- Handler `POST /api/me/experiences` (index.mjs:755-821). -/
def postExperience (db : DB) (userId : Nat) (body : ExperienceBody) :
    HandlerResult Experience × DB :=
  let pr := getOrCreateProfileByUserId db userId
  let profile := pr.1
  let db1 := pr.2
  if jsFalsyStr body.company || jsFalsyStr body.position then
    (.fail 400 "company and position are required", db1)
  else
    let scopeKeys :=
      (db1.experiences.filter (fun e => e.profile_id == profile.id)).map (·.order_index)
    let finalOrderIndex := nextOrderIndex body.order_index scopeKeys
    let row : Experience :=
      { id := db1.nextId, profile_id := profile.id,
        company := body.company.getD "", position := body.position.getD "",
        start_date := body.start_date, end_date := body.end_date,
        description := body.description, order_index := finalOrderIndex }
    (.ok 201 row, { db1 with experiences := db1.experiences ++ [row], nextId := db1.nextId + 1 })

/-- Field-wise application of the experience update object (index.mjs:890-904):
`undefined` fields are removed from `updateData`, so only supplied fields are
written. -/
def applyExperienceUpdate (body : ExperienceBody) (r : Experience) : Experience :=
  { r with
    company := body.company.getD r.company,
    position := body.position.getD r.position,
    start_date := match body.start_date with | some s => some s | none => r.start_date,
    end_date := match body.end_date with | some s => some s | none => r.end_date,
    description := match body.description with | some s => some s | none => r.description,
    order_index := body.order_index.getD r.order_index }

/-- Handler `PUT /api/me/experiences/:id` (index.mjs:874-928): update scoped
by `id` and `profile_id`, 404 when no row matched. -/
def putExperience (db : DB) (userId : Nat) (expId : Nat) (body : ExperienceBody) :
    HandlerResult Experience × DB :=
  let pr := getOrCreateProfileByUserId db userId
  let profile := pr.1
  let db1 := pr.2
  let isScoped := fun (r : Experience) => r.id == expId && r.profile_id == profile.id
  let updated := db1.experiences.map (fun r => if isScoped r then applyExperienceUpdate body r else r)
  let db2 := { db1 with experiences := updated }
  match updated.find? isScoped with
  | none => (.fail 404 "Experience not found", db2)
  | some row => (.ok 200 row, db2)

/-- Handler `DELETE /api/me/experiences/:id` (index.mjs:954-977): delete scoped
by `id` and `profile_id`; the response is `{success:true}` whether or not any
row matched. -/
def deleteExperience (db : DB) (userId : Nat) (expId : Nat) : SimpleResp × DB :=
  let pr := getOrCreateProfileByUserId db userId
  let profile := pr.1
  let db1 := pr.2
  ({ status := 200, success := true },
   { db1 with experiences :=
      db1.experiences.filter (fun r => ! (r.id == expId && r.profile_id == profile.id)) })

/-- One inserted `project_parts` row (index.mjs:1161-1170 and 1304-1313):
textual fields go through `|| null`, and a non-numeric `order_index` defaults
to the 1-based list position `idx + 1`.  `newId` is the serial id the store
assigns. -/
def partRowOfInput (projectId : Nat) (idx : Nat) (newId : Nat) (p : PartInput) : ProjectPart :=
  { id := newId, project_id := projectId,
    title := jsOrNull p.title, content := jsOrNull p.content,
    image_url := jsOrNull p.image_url, link_url := jsOrNull p.link_url,
    kind := jsOrNull p.kind,
    order_index := match p.order_index with | some n => n | none => (idx : Int) + 1 }

/-- The `partsInput.map((p, idx) => ...)` bulk-insert rows, with `idx` made
explicit for recursion; serial ids are `baseId + idx`. -/
def partRowsFrom (projectId baseId idx : Nat) : List PartInput → List ProjectPart
  | [] => []
  | p :: ps => partRowOfInput projectId idx (baseId + idx) p :: partRowsFrom projectId baseId (idx + 1) ps

/-- The full `rowsToInsert` list built from a `parts` body array. -/
def rowsToInsert (projectId baseId : Nat) (ps : List PartInput) : List ProjectPart :=
  partRowsFrom projectId baseId 0 ps

/-- Bulk insert of project parts followed by `.select("*").order(asc)`:
returns the inserted rows sorted ascending and the grown table. -/
def insertParts (db : DB) (projectId : Nat) (ps : List PartInput) :
    List ProjectPart × DB :=
  let rows := rowsToInsert projectId db.nextId ps
  (sortByKey (·.order_index) rows,
   { db with project_parts := db.project_parts ++ rows, nextId := db.nextId + ps.length })

/-- Handler `POST /api/me/projects` (index.mjs:1102-1191). -/
def postProject (db : DB) (userId : Nat) (body : ProjectBody) :
    HandlerResult (Project × List ProjectPart) × DB :=
  let pr := getOrCreateProfileByUserId db userId
  let profile := pr.1
  let db1 := pr.2
  if jsFalsyStr body.title then
    (.fail 400 "title is required", db1)
  else
    let scopeKeys :=
      (db1.projects.filter (fun p => p.profile_id == profile.id)).map (·.order_index)
    let finalOrderIndex := nextOrderIndex body.order_index scopeKeys
    let project : Project :=
      { id := db1.nextId, profile_id := profile.id, title := body.title.getD "",
        subtitle := body.subtitle, cover_image_url := body.cover_image_url,
        order_index := finalOrderIndex }
    let db2 := { db1 with projects := db1.projects ++ [project], nextId := db1.nextId + 1 }
    match body.parts with
    | some partsInput =>
      if partsInput.length > 0 then
        let ins := insertParts db2 project.id partsInput
        (.ok 201 (project, ins.1), ins.2)
      else
        (.ok 201 (project, []), db2)
    | none => (.ok 201 (project, []), db2)

/-- Field-wise application of the project update object (index.mjs:1261-1272). -/
def applyProjectUpdate (body : ProjectBody) (r : Project) : Project :=
  { r with
    title := body.title.getD r.title,
    subtitle := match body.subtitle with | some s => some s | none => r.subtitle,
    cover_image_url := match body.cover_image_url with | some s => some s | none => r.cover_image_url,
    order_index := body.order_index.getD r.order_index }

/-- Handler `PUT /api/me/projects/:id` (index.mjs:1246-1347): scoped update,
404 when no row matched, then replace-on-update of the parts when the body
carries a `parts` array, otherwise reload of the existing parts. -/
def putProject (db : DB) (userId : Nat) (projectId : Nat) (body : ProjectBody) :
    HandlerResult (Project × List ProjectPart) × DB :=
  let pr := getOrCreateProfileByUserId db userId
  let profile := pr.1
  let db1 := pr.2
  let isScoped := fun (r : Project) => r.id == projectId && r.profile_id == profile.id
  let updated := db1.projects.map (fun r => if isScoped r then applyProjectUpdate body r else r)
  let db2 := { db1 with projects := updated }
  match updated.find? isScoped with
  | none => (.fail 404 "Project not found", db2)
  | some project =>
    match body.parts with
    | some partsInput =>
      let db3 := { db2 with project_parts :=
        db2.project_parts.filter (fun p => ! (p.project_id == projectId)) }
      if partsInput.length > 0 then
        let ins := insertParts db3 projectId partsInput
        (.ok 200 (project, ins.1), ins.2)
      else
        (.ok 200 (project, []), db3)
    | none =>
      let parts := sortByKey (·.order_index)
        (db2.project_parts.filter (fun p => p.project_id == projectId))
      (.ok 200 (project, parts), db2)

/-- Handler `DELETE /api/me/projects/:id` (index.mjs:1373-1407): the parts are
deleted first, scoped ONLY by `project_id` (no ownership check), then the
project row is deleted scoped by `id` and `profile_id`; the response is
`{success:true}` whether or not the project row matched. -/
def deleteProject (db : DB) (userId : Nat) (projectId : Nat) : SimpleResp × DB :=
  let pr := getOrCreateProfileByUserId db userId
  let profile := pr.1
  let db1 := pr.2
  let db2 := { db1 with project_parts :=
    db1.project_parts.filter (fun p => ! (p.project_id == projectId)) }
  ({ status := 200, success := true },
   { db2 with projects :=
      db2.projects.filter (fun r => ! (r.id == projectId && r.profile_id == profile.id)) })

/-- A project together with its attached `parts` list, as returned by the
portfolio endpoints. -/
structure ProjectWithParts where
  project : Project
  parts : List ProjectPart
deriving DecidableEq

/-- Body of the portfolio aggregation responses. -/
structure PortfolioBody where
  profile : Profile
  experiences : List Experience
  projects : List ProjectWithParts
deriving DecidableEq

/-- The grouping loop of the aggregators (index.mjs:446-457 and 562-573):
appending each part of the ascending-sorted fetch to its project's bucket and
reading the bucket back (`partsByProject[p.id] || []`) yields exactly the
order-preserving filter of the sorted list by that project id. -/
def attachParts (projects : List Project) (partsSorted : List ProjectPart) :
    List ProjectWithParts :=
  projects.map (fun p =>
    { project := p, parts := partsSorted.filter (fun part => part.project_id == p.id) })

/-- The three scoped, ascending-ordered fetches shared by
`GET /api/me/portfolio` (index.mjs:401-469) and
`GET /api/public/portfolios/:id` (index.mjs:500-585): experiences and projects
of the profile, then the parts whose `project_id` lies in the fetched
project-id set. -/
def buildPortfolioLists (db : DB) (profileId : Nat) :
    List Experience × List ProjectWithParts :=
  let exps := sortByKey (·.order_index)
    (db.experiences.filter (fun e => e.profile_id == profileId))
  let projs := sortByKey (·.order_index)
    (db.projects.filter (fun p => p.profile_id == profileId))
  let projectIds := projs.map (·.id)
  let parts := sortByKey (·.order_index)
    (db.project_parts.filter (fun part => projectIds.contains part.project_id))
  (exps, attachParts projs parts)

/-- Handler `GET /api/me/portfolio` (index.mjs:401-469): provision the profile,
then aggregate. -/
def myPortfolio (db : DB) (userId : Nat) : PortfolioBody × DB :=
  let pr := getOrCreateProfileByUserId db userId
  let profile := pr.1
  let db1 := pr.2
  let lists := buildPortfolioLists db1 profile.id
  ({ profile := profile, experiences := lists.1, projects := lists.2 }, db1)

/-- Handler `GET /api/public/portfolios/:id` (index.mjs:500-585): fetch the
profile by id without auto-creation, 404 when absent, then aggregate. -/
def publicPortfolio (db : DB) (profileId : Nat) : HandlerResult PortfolioBody :=
  match db.profiles.find? (fun p => p.id == profileId) with
  | none => .fail 404 "Profile not found"
  | some profile =>
    let lists := buildPortfolioLists db profileId
    .ok 200 { profile := profile, experiences := lists.1, projects := lists.2 }

/-- Handler `POST /api/auth/reset-password-request` (index.mjs:1447-1479).
`resetErr` is whether the external `resetPasswordForEmail` call reports an
error (in particular for an unknown email); both branches of the handler
return the identical success body. -/
def resetPasswordRequest (email : Option String) (resetErr : Bool) :
    HandlerResult (Bool × String) :=
  if jsFalsyStr email then
    .fail 400 "Email is required"
  else if resetErr then
    .ok 200 (true, "If this email exists, a reset link has been sent.")
  else
    .ok 200 (true, "If this email exists, a reset link has been sent.")

/-! Helper lemmas about the profile provisioner. -/

theorem getOrCreate_tables (db : DB) (u : Nat) :
    (getOrCreateProfileByUserId db u).2.experiences = db.experiences ∧
    (getOrCreateProfileByUserId db u).2.projects = db.projects ∧
    (getOrCreateProfileByUserId db u).2.project_parts = db.project_parts := by
  unfold getOrCreateProfileByUserId
  cases db.profiles.find? (fun p => p.user_id == u) <;> simp

theorem getOrCreate_find_after (db : DB) (u : Nat) :
    (getOrCreateProfileByUserId db u).2.profiles.find? (fun q => q.user_id == u) =
      some (getOrCreateProfileByUserId db u).1 := by
  unfold getOrCreateProfileByUserId
  cases hf : db.profiles.find? (fun q => q.user_id == u) with
  | some p => simpa using hf
  | none => simp [List.find?_append, hf]

theorem getOrCreate_profiles_extend (db : DB) (u : Nat) :
    ∃ tail, (getOrCreateProfileByUserId db u).2.profiles = db.profiles ++ tail := by
  unfold getOrCreateProfileByUserId
  cases db.profiles.find? (fun p => p.user_id == u) with
  | some p => exact ⟨[], by simp⟩
  | none => exact ⟨_, rfl⟩

theorem jsOrNull_eq_none_iff (x : Option String) :
    jsOrNull x = none ↔ x = none ∨ x = some "" := by
  cases x with
  | none => simp [jsOrNull]
  | some s =>
    by_cases h : s = "" <;> simp [jsOrNull, h]

/-- C9: on the store's non-error path both delete handlers answer
`200 {success:true}` for every database state, caller, and identifier — in
particular also when zero rows matched the identifier-plus-owning-profile
scope, so a delete of a non-existent or not-owned entity is indistinguishable
at the HTTP interface from a successful delete, and no 404 is ever produced
by `DELETE /api/me/experiences/:id` or `DELETE /api/me/projects/:id`. -/
theorem delete_handlers_always_success (db : DB) (u expId projectId : Nat) :
    (deleteExperience db u expId).1 = { status := 200, success := true } ∧
    (deleteProject db u projectId).1 = { status := 200, success := true } :=
  ⟨rfl, rfl⟩

/-- C8: `POST /api/auth/reset-password-request` answers identically whether or
not the external reset call reports an error (i.e. whether the email is
known), and whenever an email was supplied the answer is the fixed
`200 {success:true}` body — so the response leaks no account-existence
information. -/
theorem resetPasswordRequest_uniform (email : Option String) (e1 e2 : Bool) :
    resetPasswordRequest email e1 = resetPasswordRequest email e2 ∧
    (jsFalsyStr email = false →
      resetPasswordRequest email e1 =
        .ok 200 (true, "If this email exists, a reset link has been sent.")) := by
  constructor
  · unfold resetPasswordRequest
    cases h : jsFalsyStr email <;> cases e1 <;> cases e2 <;> simp
  · intro h
    unfold resetPasswordRequest
    cases e1 <;> simp [h]

/-- Witness for C8 at a concrete email, with the external call erring in one
run and succeeding in the other. -/
theorem resetPasswordRequest_uniform_witness :
    resetPasswordRequest (some "user@example.com") true =
      resetPasswordRequest (some "user@example.com") false ∧
    resetPasswordRequest (some "user@example.com") true =
      .ok 200 (true, "If this email exists, a reset link has been sent.") :=
  ⟨(resetPasswordRequest_uniform (some "user@example.com") true false).1,
   (resetPasswordRequest_uniform (some "user@example.com") true false).2 (by decide)⟩

/-- C7: the auth guard denies with 401 and presents no token to the external
auth service when the `Authorization` header carries no bearer credential;
with a bearer credential it presents exactly that token, denies with 401 when
the service rejects it or resolves no principal, and attaches the resolved
principal on success. -/
theorem requireAuth_spec (h : String) (getUser : String → Option AuthUser) :
    (strStartsWith h "Bearer " = false → requireAuth h getUser = (.denied 401, [])) ∧
    (strStartsWith h "Bearer " = true →
      (getUser ((jsSplitSpace h).getD 1 "") = none →
        requireAuth h getUser = (.denied 401, [(jsSplitSpace h).getD 1 ""])) ∧
      (∀ u, getUser ((jsSplitSpace h).getD 1 "") = some u →
        requireAuth h getUser = (.granted u, [(jsSplitSpace h).getD 1 ""]))) := by
  refine ⟨fun hs => ?_, fun hs => ⟨fun hg => ?_, fun u hg => ?_⟩⟩
  · simp [requireAuth, hs]
  · rw [List.getD_eq_getElem?_getD] at hg
    simp [requireAuth, hs, hg]
  · rw [List.getD_eq_getElem?_getD] at hg
    simp [requireAuth, hs, hg]

/-- Concrete auth-service stub for the C7 witness. -/
def getUserStub : String → Option AuthUser :=
  fun t => if t == "tok1" then some { id := 7, email := "user@example.com" } else none

/-- Witness for C7: all three guard outcomes at concrete headers. -/
theorem requireAuth_spec_witness :
    requireAuth "Basic xyz" getUserStub = (.denied 401, []) ∧
    requireAuth "Bearer bad" getUserStub = (.denied 401, ["bad"]) ∧
    requireAuth "Bearer tok1" getUserStub =
      (.granted { id := 7, email := "user@example.com" }, ["tok1"]) :=
  ⟨(requireAuth_spec "Basic xyz" getUserStub).1 (by decide),
   (((requireAuth_spec "Bearer bad" getUserStub).2 (by decide)).1 (by decide)).trans
     (by decide),
   (((requireAuth_spec "Bearer tok1" getUserStub).2 (by decide)).2
     { id := 7, email := "user@example.com" } (by decide)).trans (by decide)⟩

/-- Two users: user 1 owns profile 10, user 2 owns profile 20; project 7 and
its part 100 belong to user 2's profile. -/
def dbCross : DB :=
  { profiles :=
      [{ id := 10, user_id := 1, first_name := "A", last_name := "A", about := "",
         avatar_url := none, is_featured := false },
       { id := 20, user_id := 2, first_name := "B", last_name := "B", about := "",
         avatar_url := none, is_featured := false }],
    experiences := [],
    projects :=
      [{ id := 7, profile_id := 20, title := "B project", subtitle := none,
         cover_image_url := none, order_index := 1 }],
    project_parts :=
      [{ id := 100, project_id := 7, title := some "B part", content := none,
         image_url := none, link_url := none, kind := none, order_index := 1 }],
    nextId := 200 }

/-- C1 (code bug): user 1 issues `DELETE /api/me/projects/7` against user 2's
project.  The handler answers `200 {success:true}` rather than a
not-found/failure, and it deletes user 2's `project_parts` row (the parts
delete is scoped only by `project_id`), while the scoped project delete leaves
the project row in place. -/
theorem deleteProject_cross_user_bug :
    (deleteProject dbCross 1 7).1 = { status := 200, success := true } ∧
    (deleteProject dbCross 1 7).2.project_parts = [] ∧
    (deleteProject dbCross 1 7).2.projects = dbCross.projects := by
  decide

/-- C10: in the bulk-insert row built from a supplied project part (used by
both `POST /api/me/projects` and `PUT /api/me/projects/:id`), each textual
field is stored as null exactly when the supplied value is falsy — absent,
null, or the empty string. -/
theorem partRow_null_coercion (projectId idx newId : Nat) (p : PartInput) :
    ((partRowOfInput projectId idx newId p).title = none ↔
      p.title = none ∨ p.title = some "") ∧
    ((partRowOfInput projectId idx newId p).content = none ↔
      p.content = none ∨ p.content = some "") ∧
    ((partRowOfInput projectId idx newId p).image_url = none ↔
      p.image_url = none ∨ p.image_url = some "") ∧
    ((partRowOfInput projectId idx newId p).link_url = none ↔
      p.link_url = none ∨ p.link_url = some "") ∧
    ((partRowOfInput projectId idx newId p).kind = none ↔
      p.kind = none ∨ p.kind = some "") :=
  ⟨jsOrNull_eq_none_iff p.title, jsOrNull_eq_none_iff p.content,
   jsOrNull_eq_none_iff p.image_url, jsOrNull_eq_none_iff p.link_url,
   jsOrNull_eq_none_iff p.kind⟩

/-- C2: the profile provisioner looks the profile up by owning-user id and
returns it unchanged (no write) when present; when absent it inserts a fresh
profile with empty first name, last name, and biography and returns the
inserted row; and two successive calls for the same user return the same
profile (in particular the same identifier), the second call performs no
write, and no duplicate row is created (the final profile count for the user
is its old count, or 1 if it was 0). -/
theorem getOrCreateProfile_spec (db : DB) (userId : Nat) :
    (∀ p, db.profiles.find? (fun q => q.user_id == userId) = some p →
      getOrCreateProfileByUserId db userId = (p, db)) ∧
    (db.profiles.find? (fun q => q.user_id == userId) = none →
      ∃ newP : Profile, newP.user_id = userId ∧ newP.first_name = "" ∧
        newP.last_name = "" ∧ newP.about = "" ∧
        getOrCreateProfileByUserId db userId =
          (newP, { db with profiles := db.profiles ++ [newP], nextId := db.nextId + 1 })) ∧
    ((getOrCreateProfileByUserId (getOrCreateProfileByUserId db userId).2 userId).1 =
        (getOrCreateProfileByUserId db userId).1 ∧
      (getOrCreateProfileByUserId (getOrCreateProfileByUserId db userId).2 userId).2 =
        (getOrCreateProfileByUserId db userId).2 ∧
      (getOrCreateProfileByUserId db userId).2.profiles.countP
          (fun q => q.user_id == userId) =
        max 1 (db.profiles.countP (fun q => q.user_id == userId))) := by
  refine ⟨fun p hp => ?_, fun hn => ?_, ?_, ?_, ?_⟩
  · unfold getOrCreateProfileByUserId
    rw [hp]
  · refine ⟨{ id := db.nextId, user_id := userId, first_name := "",
              last_name := "", about := "", avatar_url := none,
              is_featured := false }, rfl, rfl, rfl, rfl, ?_⟩
    unfold getOrCreateProfileByUserId
    rw [hn]
  · conv_lhs => rw [getOrCreateProfileByUserId]
    rw [getOrCreate_find_after]
  · conv_lhs => rw [getOrCreateProfileByUserId]
    rw [getOrCreate_find_after]
  · unfold getOrCreateProfileByUserId
    cases hf : db.profiles.find? (fun q => q.user_id == userId) with
    | some p =>
      have hmem := List.find?_some hf
      have hpos : 0 < db.profiles.countP (fun q => q.user_id == userId) :=
        List.countP_pos_iff.mpr ⟨p, List.mem_of_find?_eq_some hf, hmem⟩
      simp only []
      omega
    | none =>
      have hz : db.profiles.countP (fun q => q.user_id == userId) = 0 := by
        rw [List.countP_eq_zero]
        intro a ha
        have := List.find?_eq_none.mp hf a ha
        simpa using this
      simp [List.countP_append, hz]

/-- Database for the C2 witness: user 5 already has profile 40, user 6 has
none. -/
def dbProv : DB :=
  { profiles :=
      [{ id := 40, user_id := 5, first_name := "Ann", last_name := "Lee",
         about := "hi", avatar_url := none, is_featured := false }],
    experiences := [], projects := [], project_parts := [], nextId := 41 }

/-- Witness for C2: the existing profile of user 5 is returned with no write,
and provisioning user 6 inserts an empty profile. -/
theorem getOrCreateProfile_spec_witness :
    getOrCreateProfileByUserId dbProv 5 =
      ({ id := 40, user_id := 5, first_name := "Ann", last_name := "Lee",
         about := "hi", avatar_url := none, is_featured := false }, dbProv) ∧
    (∃ newP : Profile, newP.user_id = 6 ∧ newP.first_name = "" ∧
      newP.last_name = "" ∧ newP.about = "" ∧
      getOrCreateProfileByUserId dbProv 6 =
        (newP, { dbProv with
          profiles := dbProv.profiles ++ [newP],
          nextId := dbProv.nextId + 1 })) :=
  ⟨(getOrCreateProfile_spec dbProv 5).1
      { id := 40, user_id := 5, first_name := "Ann", last_name := "Lee",
        about := "hi", avatar_url := none, is_featured := false } (by decide),
   (getOrCreateProfile_spec dbProv 6).2.1 (by decide)⟩

theorem nextOrderIndex_none_nil : nextOrderIndex none [] = 1 := rfl

theorem nextOrderIndex_none_max (keys : List Int) (m : Int)
    (hm : m ∈ keys) (hmax : ∀ k ∈ keys, k ≤ m) :
    nextOrderIndex none keys = m + 1 := by
  have hne : keys ≠ [] := by
    intro h
    rw [h] at hm
    exact absurd hm (List.not_mem_nil m)
  obtain ⟨m0, h0, hmem0, hmax0⟩ := lastOrderIndex_spec keys hne
  have hoq : m0 = m := le_antisymm (hmax m0 hmem0) (hmax0 m hm)
  unfold nextOrderIndex
  rw [h0, hoq]

/-- Experience body with mandatory fields and no explicit order, for the C4
scenario. -/
def expBodyScen : ExperienceBody :=
  { company := some "Acme", position := some "Dev", start_date := none,
    end_date := none, description := none, order_index := none }

/-- C4: when a create for an Experience or Project supplies no explicit
numeric `order_index`, the handler consults the maximum `order_index` of the
owning profile's scope and stores max+1, storing 1 when the scope is empty;
and concretely, creating a first then a second Experience with no
`order_index` on a fresh profile stores `order_index` 1 then 2. -/
theorem create_autoincrement_order (db : DB) (u : Nat)
    (ebody : ExperienceBody) (pbody : ProjectBody) :
    (jsFalsyStr ebody.company = false → jsFalsyStr ebody.position = false →
      ebody.order_index = none →
      ∃ row : Experience,
        (postExperience db u ebody).1 = .ok 201 row ∧
        (postExperience db u ebody).2.experiences = db.experiences ++ [row] ∧
        ((db.experiences.filter
            (fun e => e.profile_id == (getOrCreateProfileByUserId db u).1.id)) = [] →
          row.order_index = 1) ∧
        (∀ m : Int,
          (m ∈ (db.experiences.filter
              (fun e => e.profile_id == (getOrCreateProfileByUserId db u).1.id)).map
              (·.order_index) ∧
            ∀ k ∈ (db.experiences.filter
              (fun e => e.profile_id == (getOrCreateProfileByUserId db u).1.id)).map
              (·.order_index), k ≤ m) →
          row.order_index = m + 1)) ∧
    (jsFalsyStr pbody.title = false → pbody.order_index = none →
      ∃ proj : Project,
        (postProject db u pbody).2.projects = db.projects ++ [proj] ∧
        ((db.projects.filter
            (fun p => p.profile_id == (getOrCreateProfileByUserId db u).1.id)) = [] →
          proj.order_index = 1) ∧
        (∀ m : Int,
          (m ∈ (db.projects.filter
              (fun p => p.profile_id == (getOrCreateProfileByUserId db u).1.id)).map
              (·.order_index) ∧
            ∀ k ∈ (db.projects.filter
              (fun p => p.profile_id == (getOrCreateProfileByUserId db u).1.id)).map
              (·.order_index), k ≤ m) →
          proj.order_index = m + 1)) ∧
    ((postExperience dbProv 5 expBodyScen).2.experiences.map (·.order_index) = [1] ∧
      (postExperience (postExperience dbProv 5 expBodyScen).2 5
        expBodyScen).2.experiences.map (·.order_index) = [1, 2]) := by
  obtain ⟨hTe, hTp, hTpp⟩ := getOrCreate_tables db u
  refine ⟨fun hc hp ho => ?_, fun ht ho => ?_, by decide⟩
  · unfold postExperience
    simp only [hc, hp, Bool.or_self, Bool.false_eq_true, if_false, hTe, ho]
    refine ⟨_, rfl, rfl, fun hnil => ?_, fun m hm => ?_⟩
    · simp only [hnil, List.map_nil]
      exact nextOrderIndex_none_nil
    · exact nextOrderIndex_none_max _ m hm.1 hm.2
  · unfold postProject
    simp only [ht, Bool.false_eq_true, if_false, hTp, ho]
    cases hparts : pbody.parts with
    | some partsInput =>
      by_cases hlen : partsInput.length > 0
      · simp only [hlen, if_true]
        exact ⟨_, rfl,
          fun hnil => by rw [hnil]; rfl,
          fun m hm => nextOrderIndex_none_max _ m hm.1 hm.2⟩
      · simp only [hlen, if_false]
        refine ⟨_, rfl, fun hnil => ?_, fun m hm => ?_⟩
        · simp only [hnil, List.map_nil]
          exact nextOrderIndex_none_nil
        · exact nextOrderIndex_none_max _ m hm.1 hm.2
    | none =>
      refine ⟨_, rfl, fun hnil => ?_, fun m hm => ?_⟩
      · simp only [hnil, List.map_nil]
        exact nextOrderIndex_none_nil
      · exact nextOrderIndex_none_max _ m hm.1 hm.2

/-- Project body with a title and no explicit order, for the C4 witness. -/
def projBodyScen : ProjectBody :=
  { title := some "Site", subtitle := none, cover_image_url := none,
    order_index := none, parts := none }

/-- Witness for C4 at a concrete database and concrete create bodies. -/
theorem create_autoincrement_order_witness :
    (∃ row : Experience,
      (postExperience dbProv 5 expBodyScen).1 = .ok 201 row ∧
      (postExperience dbProv 5 expBodyScen).2.experiences =
        dbProv.experiences ++ [row] ∧
      ((dbProv.experiences.filter
          (fun e => e.profile_id == (getOrCreateProfileByUserId dbProv 5).1.id)) = [] →
        row.order_index = 1) ∧
      (∀ m : Int,
        (m ∈ (dbProv.experiences.filter
            (fun e => e.profile_id == (getOrCreateProfileByUserId dbProv 5).1.id)).map
            (·.order_index) ∧
          ∀ k ∈ (dbProv.experiences.filter
            (fun e => e.profile_id == (getOrCreateProfileByUserId dbProv 5).1.id)).map
            (·.order_index), k ≤ m) →
        row.order_index = m + 1)) ∧
    (∃ proj : Project,
      (postProject dbProv 5 projBodyScen).2.projects = dbProv.projects ++ [proj] ∧
      ((dbProv.projects.filter
          (fun p => p.profile_id == (getOrCreateProfileByUserId dbProv 5).1.id)) = [] →
        proj.order_index = 1) ∧
      (∀ m : Int,
        (m ∈ (dbProv.projects.filter
            (fun p => p.profile_id == (getOrCreateProfileByUserId dbProv 5).1.id)).map
            (·.order_index) ∧
          ∀ k ∈ (dbProv.projects.filter
            (fun p => p.profile_id == (getOrCreateProfileByUserId dbProv 5).1.id)).map
            (·.order_index), k ≤ m) →
        proj.order_index = m + 1)) :=
  ⟨(create_autoincrement_order dbProv 5 expBodyScen projBodyScen).1
      (by decide) (by decide) rfl,
   (create_autoincrement_order dbProv 5 expBodyScen projBodyScen).2.1
      (by decide) rfl⟩

theorem forall2_map_self {α : Type} (f : α → α) (P : α → α → Prop) :
    ∀ l : List α, (∀ a ∈ l, P a (f a)) → List.Forall₂ P l (l.map f) := by
  intro l
  induction l with
  | nil => intro _; exact List.Forall₂.nil
  | cons a l ih =>
    intro h
    exact List.Forall₂.cons (h a (by simp)) (ih (fun b hb => h b (by simp [hb])))

theorem map_self_of_fix {α : Type} (f : α → α) :
    ∀ l : List α, (∀ a ∈ l, f a = a) → l.map f = l := by
  intro l
  induction l with
  | nil => intro _; rfl
  | cons a l ih =>
    intro h
    simp only [List.map_cons, h a (by simp), ih (fun b hb => h b (by simp [hb]))]

theorem putExperience_db (db : DB) (u expId : Nat) (ebody : ExperienceBody) :
    (putExperience db u expId ebody).2 =
      { (getOrCreateProfileByUserId db u).2 with
        experiences := (getOrCreateProfileByUserId db u).2.experiences.map
          (fun r =>
            if r.id == expId && r.profile_id == (getOrCreateProfileByUserId db u).1.id
            then applyExperienceUpdate ebody r else r) } := by
  unfold putExperience
  dsimp only
  split <;> rfl

theorem putProject_projections (db : DB) (u projectId : Nat) (pbody : ProjectBody) :
    (putProject db u projectId pbody).2.projects =
      (getOrCreateProfileByUserId db u).2.projects.map
        (fun r =>
          if r.id == projectId && r.profile_id == (getOrCreateProfileByUserId db u).1.id
          then applyProjectUpdate pbody r else r) ∧
    (putProject db u projectId pbody).2.experiences =
      (getOrCreateProfileByUserId db u).2.experiences ∧
    (putProject db u projectId pbody).2.profiles =
      (getOrCreateProfileByUserId db u).2.profiles := by
  refine ⟨?_, ?_, ?_⟩ <;>
    (unfold putProject
     dsimp only
     split
     · rfl
     · split
       · split
         · rfl
         · rfl
       · rfl)

/-- C6: the update handlers write only the fields present in the request
body — any omitted field of every stored row is unchanged — and they scope
the update by entity id plus owning-profile id: rows outside the scope are
untouched, and when no row matches the scope the handler answers 404 with
every row of every table left as it was (the provisioner may only append a
fresh profile row, never altering existing ones). -/
theorem put_update_omitted_field_frame (db : DB) (u expId projectId : Nat)
    (ebody : ExperienceBody) (pbody : ProjectBody) :
    (List.Forall₂ (fun (r0 r1 : Experience) =>
        (¬ (r0.id = expId ∧ r0.profile_id = (getOrCreateProfileByUserId db u).1.id) →
          r1 = r0) ∧
        (ebody.company = none → r1.company = r0.company) ∧
        (ebody.position = none → r1.position = r0.position) ∧
        (ebody.start_date = none → r1.start_date = r0.start_date) ∧
        (ebody.end_date = none → r1.end_date = r0.end_date) ∧
        (ebody.description = none → r1.description = r0.description) ∧
        (ebody.order_index = none → r1.order_index = r0.order_index))
      db.experiences (putExperience db u expId ebody).2.experiences) ∧
    ((∀ r ∈ db.experiences,
        ¬ (r.id = expId ∧ r.profile_id = (getOrCreateProfileByUserId db u).1.id)) →
      (putExperience db u expId ebody).1 = .fail 404 "Experience not found" ∧
      (putExperience db u expId ebody).2.experiences = db.experiences) ∧
    (putExperience db u expId ebody).2.projects = db.projects ∧
    (putExperience db u expId ebody).2.project_parts = db.project_parts ∧
    (∃ tail, (putExperience db u expId ebody).2.profiles = db.profiles ++ tail) ∧
    (List.Forall₂ (fun (r0 r1 : Project) =>
        (¬ (r0.id = projectId ∧ r0.profile_id = (getOrCreateProfileByUserId db u).1.id) →
          r1 = r0) ∧
        (pbody.title = none → r1.title = r0.title) ∧
        (pbody.subtitle = none → r1.subtitle = r0.subtitle) ∧
        (pbody.cover_image_url = none → r1.cover_image_url = r0.cover_image_url) ∧
        (pbody.order_index = none → r1.order_index = r0.order_index))
      db.projects (putProject db u projectId pbody).2.projects) ∧
    ((∀ r ∈ db.projects,
        ¬ (r.id = projectId ∧ r.profile_id = (getOrCreateProfileByUserId db u).1.id)) →
      (putProject db u projectId pbody).1 = .fail 404 "Project not found" ∧
      (putProject db u projectId pbody).2.projects = db.projects ∧
      (putProject db u projectId pbody).2.project_parts = db.project_parts) ∧
    (putProject db u projectId pbody).2.experiences = db.experiences ∧
    (∃ tail, (putProject db u projectId pbody).2.profiles = db.profiles ++ tail) := by
  obtain ⟨hTe, hTp, hTpp⟩ := getOrCreate_tables db u
  refine ⟨?_, ?_, ?_, ?_, ?_, ?_, ?_, ?_, ?_⟩
  · rw [putExperience_db]
    dsimp only
    rw [hTe]
    apply forall2_map_self
    intro a _
    by_cases hsc :
        (a.id == expId && a.profile_id == (getOrCreateProfileByUserId db u).1.id) = true
    · rw [if_pos hsc]
      refine ⟨fun hcon => absurd ?_ hcon, fun h1 => ?_, fun h1 => ?_, fun h1 => ?_,
        fun h1 => ?_, fun h1 => ?_, fun h1 => ?_⟩
      · simpa [Bool.and_eq_true, beq_iff_eq] using hsc
      all_goals simp [applyExperienceUpdate, h1]
    · rw [if_neg hsc]
      exact ⟨fun _ => rfl, fun _ => rfl, fun _ => rfl, fun _ => rfl, fun _ => rfl,
        fun _ => rfl, fun _ => rfl⟩
  · intro hno
    constructor
    · unfold putExperience
      dsimp only
      split
      · rfl
      · rename_i row heq
        exfalso
        have hpred := List.find?_some heq
        have hmem := List.mem_of_find?_eq_some heq
        rw [List.mem_map] at hmem
        obtain ⟨r, hr, rfl⟩ := hmem
        rw [hTe] at hr
        by_cases hsc :
            (r.id == expId && r.profile_id == (getOrCreateProfileByUserId db u).1.id) = true
        · exact hno r hr (by simpa [Bool.and_eq_true, beq_iff_eq] using hsc)
        · rw [if_neg hsc] at hpred
          exact hsc hpred
    · rw [putExperience_db]
      dsimp only
      rw [hTe]
      apply map_self_of_fix
      intro a ha
      apply if_neg
      intro hsc
      exact hno a ha (by simpa [Bool.and_eq_true, beq_iff_eq] using hsc)
  · rw [putExperience_db]
    exact hTp
  · rw [putExperience_db]
    exact hTpp
  · rw [putExperience_db]
    exact getOrCreate_profiles_extend db u
  · rw [(putProject_projections db u projectId pbody).1, hTp]
    apply forall2_map_self
    intro a _
    by_cases hsc :
        (a.id == projectId && a.profile_id == (getOrCreateProfileByUserId db u).1.id) = true
    · rw [if_pos hsc]
      refine ⟨fun hcon => absurd ?_ hcon, fun h1 => ?_, fun h1 => ?_, fun h1 => ?_,
        fun h1 => ?_⟩
      · simpa [Bool.and_eq_true, beq_iff_eq] using hsc
      all_goals simp [applyProjectUpdate, h1]
    · rw [if_neg hsc]
      exact ⟨fun _ => rfl, fun _ => rfl, fun _ => rfl, fun _ => rfl, fun _ => rfl⟩
  · intro hno
    have hupd : (getOrCreateProfileByUserId db u).2.projects.map
        (fun r =>
          if r.id == projectId && r.profile_id == (getOrCreateProfileByUserId db u).1.id
          then applyProjectUpdate pbody r else r) = db.projects := by
      rw [hTp]
      apply map_self_of_fix
      intro a ha
      apply if_neg
      intro hsc
      exact hno a ha (by simpa [Bool.and_eq_true, beq_iff_eq] using hsc)
    refine ⟨?_, ?_, ?_⟩
    · unfold putProject
      dsimp only
      split
      · rfl
      · rename_i project heq
        exfalso
        have hpred := List.find?_some heq
        have hmem := List.mem_of_find?_eq_some heq
        rw [List.mem_map] at hmem
        obtain ⟨r, hr, rfl⟩ := hmem
        rw [hTp] at hr
        by_cases hsc :
            (r.id == projectId && r.profile_id == (getOrCreateProfileByUserId db u).1.id) = true
        · exact hno r hr (by simpa [Bool.and_eq_true, beq_iff_eq] using hsc)
        · rw [if_neg hsc] at hpred
          exact hsc hpred
    · rw [(putProject_projections db u projectId pbody).1]
      exact hupd
    · unfold putProject
      dsimp only
      split
      · exact hTpp
      · rename_i project heq
        exfalso
        have hpred := List.find?_some heq
        have hmem := List.mem_of_find?_eq_some heq
        rw [List.mem_map] at hmem
        obtain ⟨r, hr, rfl⟩ := hmem
        rw [hTp] at hr
        by_cases hsc :
            (r.id == projectId && r.profile_id == (getOrCreateProfileByUserId db u).1.id) = true
        · exact hno r hr (by simpa [Bool.and_eq_true, beq_iff_eq] using hsc)
        · rw [if_neg hsc] at hpred
          exact hsc hpred
  · rw [(putProject_projections db u projectId pbody).2.1]
    exact hTe
  · rw [(putProject_projections db u projectId pbody).2.2]
    exact getOrCreate_profiles_extend db u

theorem partRowsFrom_project_id (pid b : Nat) :
    ∀ (ps : List PartInput) (j : Nat) (r : ProjectPart),
      r ∈ partRowsFrom pid b j ps → r.project_id = pid := by
  intro ps
  induction ps with
  | nil =>
    intro j r hr
    simp [partRowsFrom] at hr
  | cons p ps ih =>
    intro j r hr
    rw [partRowsFrom] at hr
    rcases List.mem_cons.mp hr with rfl | hr
    · rfl
    · exact ih (j + 1) r hr

theorem partRowsFrom_length (pid b : Nat) :
    ∀ (ps : List PartInput) (j : Nat), (partRowsFrom pid b j ps).length = ps.length := by
  intro ps
  induction ps with
  | nil => intro j; rfl
  | cons p ps ih => intro j; simp [partRowsFrom, ih]

theorem partRowsFrom_get? (pid b : Nat) :
    ∀ (ps : List PartInput) (j i : Nat) (p : PartInput), ps.get? i = some p →
      (partRowsFrom pid b j ps).get? i =
        some (partRowOfInput pid (j + i) (b + (j + i)) p) := by
  intro ps
  induction ps with
  | nil => intro j i p hp; simp at hp
  | cons q ps ih =>
    intro j i p hp
    cases i with
    | zero =>
      simp only [List.get?] at hp
      cases hp
      simp [partRowsFrom]
    | succ i =>
      simp only [List.get?] at hp
      have hrec := ih (j + 1) i p hp
      rw [partRowsFrom]
      simp only [List.get?]
      rw [hrec]
      congr 2 <;> omega

/-- Database for the C6 witness: user 5's profile 40 owns experience 50 and
project 60. -/
def dbPut : DB :=
  { profiles :=
      [{ id := 40, user_id := 5, first_name := "Ann", last_name := "Lee",
         about := "hi", avatar_url := none, is_featured := false }],
    experiences :=
      [{ id := 50, profile_id := 40, company := "Acme", position := "Dev",
         start_date := none, end_date := none, description := none,
         order_index := 1 }],
    projects :=
      [{ id := 60, profile_id := 40, title := "Site", subtitle := some "Old",
         cover_image_url := none, order_index := 1 }],
    project_parts := [], nextId := 70 }

/-- Update body touching only the experience company field. -/
def ebodyPut : ExperienceBody :=
  { company := some "NewCo", position := none, start_date := none,
    end_date := none, description := none, order_index := none }

/-- Update body touching only the project title field. -/
def pbodyPut : ProjectBody :=
  { title := some "NewTitle", subtitle := none, cover_image_url := none,
    order_index := none, parts := none }

/-- Witness for C6: the 404 branches of both update handlers at a concrete
database, entity id 999 matching no scoped row. -/
theorem put_update_omitted_field_frame_witness :
    ((putExperience dbPut 5 999 ebodyPut).1 = .fail 404 "Experience not found" ∧
      (putExperience dbPut 5 999 ebodyPut).2.experiences = dbPut.experiences) ∧
    ((putProject dbPut 5 999 pbodyPut).1 = .fail 404 "Project not found" ∧
      (putProject dbPut 5 999 pbodyPut).2.projects = dbPut.projects ∧
      (putProject dbPut 5 999 pbodyPut).2.project_parts = dbPut.project_parts) :=
  ⟨(put_update_omitted_field_frame dbPut 5 999 999 ebodyPut pbodyPut).2.1 (by decide),
   (put_update_omitted_field_frame dbPut 5 999 999 ebodyPut pbodyPut).2.2.2.2.2.2.1 (by decide)⟩

/-- C3: for a `PUT /api/me/projects/:id` on a project the caller owns —
when the body carries a `parts` array the handler deletes every existing part
of that project and bulk-inserts the supplied list, each part without an
explicitly numeric `order_index` receiving its 1-based list position; a
supplied empty `parts` array leaves the project with zero parts; and an
omitted `parts` field leaves the stored parts untouched and returns exactly
those parts (as their ascending-order permutation) in the response. -/
theorem putProject_parts_replace (db : DB) (u projectId : Nat) (body : ProjectBody)
    (hOwn : ∃ r ∈ db.projects,
      r.id = projectId ∧ r.profile_id = (getOrCreateProfileByUserId db u).1.id) :
    (∀ ps : List PartInput, body.parts = some ps → ps ≠ [] →
      ∃ base : Nat,
        (putProject db u projectId body).2.project_parts =
          db.project_parts.filter (fun p => ! (p.project_id == projectId)) ++
            rowsToInsert projectId base ps ∧
        (putProject db u projectId body).2.project_parts.filter
            (fun p => p.project_id == projectId) = rowsToInsert projectId base ps ∧
        (rowsToInsert projectId base ps).length = ps.length ∧
        (∀ (i : Nat) (p : PartInput), ps.get? i = some p →
          ∃ r : ProjectPart, (rowsToInsert projectId base ps).get? i = some r ∧
            r.project_id = projectId ∧
            r.order_index =
              (match p.order_index with | some n => n | none => (i : Int) + 1))) ∧
    (body.parts = some [] →
      (putProject db u projectId body).2.project_parts =
        db.project_parts.filter (fun p => ! (p.project_id == projectId)) ∧
      (putProject db u projectId body).2.project_parts.filter
        (fun p => p.project_id == projectId) = [] ∧
      ∃ proj : Project, (putProject db u projectId body).1 = .ok 200 (proj, [])) ∧
    (body.parts = none →
      (putProject db u projectId body).2.project_parts = db.project_parts ∧
      ∃ (proj : Project) (parts : List ProjectPart),
        (putProject db u projectId body).1 = .ok 200 (proj, parts) ∧
        parts.Perm (db.project_parts.filter (fun p => p.project_id == projectId)) ∧
        parts.Pairwise (fun a b => a.order_index ≤ b.order_index)) := by
  obtain ⟨hTe, hTp, hTpp⟩ := getOrCreate_tables db u
  have hfilters : ∀ base ps,
      (db.project_parts.filter (fun p => ! (p.project_id == projectId)) ++
        rowsToInsert projectId base ps).filter (fun p => p.project_id == projectId) =
        rowsToInsert projectId base ps := by
    intro base ps
    rw [List.filter_append, List.filter_filter]
    have h1 : List.filter
        (fun a => a.project_id == projectId && ! (a.project_id == projectId))
        db.project_parts = [] := by
      apply List.filter_eq_nil_iff.mpr
      intro a _
      cases h : a.project_id == projectId <;> simp [h]
    have h2 : (rowsToInsert projectId base ps).filter
        (fun p => p.project_id == projectId) = rowsToInsert projectId base ps := by
      apply List.filter_eq_self.mpr
      intro r hr
      rw [partRowsFrom_project_id projectId base ps 0 r hr]
      simp
    rw [h1, h2]
    rfl
  unfold putProject
  dsimp only
  split
  · rename_i heq
    exfalso
    obtain ⟨r, hr, hid, hpid⟩ := hOwn
    rw [List.find?_eq_none] at heq
    refine heq (if (r.id == projectId &&
        r.profile_id == (getOrCreateProfileByUserId db u).1.id) = true
      then applyProjectUpdate body r else r) ?_ ?_
    · exact List.mem_map_of_mem _ (hTp ▸ hr)
    · have hsc : (r.id == projectId &&
          r.profile_id == (getOrCreateProfileByUserId db u).1.id) = true := by
        simp [Bool.and_eq_true, beq_iff_eq, hid, hpid]
      rw [if_pos hsc]
      exact hsc
  · rename_i project heq
    refine ⟨fun ps hps hne => ?_, fun hps => ?_, fun hps => ?_⟩
    · rw [hps]
      dsimp only
      have hlen : ps.length > 0 := List.length_pos.mpr hne
      rw [if_pos hlen]
      refine ⟨(getOrCreateProfileByUserId db u).2.nextId, ?_, ?_, ?_, ?_⟩
      · dsimp only [insertParts]
        rw [← hTpp]
      · have hbase : (insertParts
            { (getOrCreateProfileByUserId db u).2 with
              projects := ((getOrCreateProfileByUserId db u).2.projects).map
                (fun r =>
                  if r.id == projectId &&
                      r.profile_id == (getOrCreateProfileByUserId db u).1.id
                  then applyProjectUpdate body r else r),
              project_parts := ((getOrCreateProfileByUserId db u).2.project_parts).filter
                (fun p => ! (p.project_id == projectId)) }
            projectId ps).2.project_parts =
            db.project_parts.filter (fun p => ! (p.project_id == projectId)) ++
              rowsToInsert projectId (getOrCreateProfileByUserId db u).2.nextId ps := by
          dsimp only [insertParts]
          rw [← hTpp]
        rw [hbase, hfilters]
      · exact partRowsFrom_length projectId _ ps 0
      · intro i p hp
        have hi := partRowsFrom_get? projectId ((getOrCreateProfileByUserId db u).2.nextId)
          ps 0 i p hp
        refine ⟨partRowOfInput projectId (0 + i)
            ((getOrCreateProfileByUserId db u).2.nextId + (0 + i)) p, ?_, rfl, ?_⟩
        · rw [rowsToInsert]
          exact hi
        · cases hO : p.order_index with
          | none => simp [partRowOfInput, hO]
          | some n => simp [partRowOfInput, hO]
    · rw [hps]
      dsimp only
      rw [if_neg (by simp)]
      refine ⟨?_, ?_, ⟨project, rfl⟩⟩
      · rw [← hTpp]
      · show List.filter (fun p => p.project_id == projectId)
          (List.filter (fun p => ! (p.project_id == projectId))
            (getOrCreateProfileByUserId db u).2.project_parts) = []
        rw [List.filter_filter]
        apply List.filter_eq_nil_iff.mpr
        intro a _
        cases h : a.project_id == projectId <;> simp [h]
    · rw [hps]
      dsimp only
      refine ⟨?_, project, _, rfl, ?_, ?_⟩
      · exact hTpp
      · rw [hTpp]
        exact sortByKey_perm _ _
      · exact sortByKey_pairwise _ _

/-- Database for the C3 witness: user 5's profile 40 owns project 60, which
has one stored part. -/
def dbParts : DB :=
  { profiles :=
      [{ id := 40, user_id := 5, first_name := "Ann", last_name := "Lee",
         about := "hi", avatar_url := none, is_featured := false }],
    experiences := [],
    projects :=
      [{ id := 60, profile_id := 40, title := "Site", subtitle := none,
         cover_image_url := none, order_index := 1 }],
    project_parts :=
      [{ id := 70, project_id := 60, title := some "old", content := none,
         image_url := none, link_url := none, kind := none, order_index := 1 }],
    nextId := 80 }

/-- A single supplied part without explicit order, for the C3 witness. -/
def partInputRep : PartInput :=
  { title := some "p1", content := none, image_url := none, link_url := none,
    kind := none, order_index := none }

/-- Project update body replacing the parts with one part. -/
def pbodyRep : ProjectBody :=
  { title := none, subtitle := none, cover_image_url := none,
    order_index := none, parts := some [partInputRep] }

/-- Project update body replacing the parts with the empty list. -/
def pbodyEmpty : ProjectBody :=
  { title := none, subtitle := none, cover_image_url := none,
    order_index := none, parts := some [] }

/-- Project update body omitting the parts field. -/
def pbodyOmit : ProjectBody :=
  { title := none, subtitle := none, cover_image_url := none,
    order_index := none, parts := none }

/-- Witness for C3: the three parts behaviours of the project update at a
concrete owned project. -/
theorem putProject_parts_replace_witness :
    (∃ base : Nat,
      (putProject dbParts 5 60 pbodyRep).2.project_parts =
        dbParts.project_parts.filter (fun p => ! (p.project_id == 60)) ++
          rowsToInsert 60 base [partInputRep] ∧
      (putProject dbParts 5 60 pbodyRep).2.project_parts.filter
          (fun p => p.project_id == 60) = rowsToInsert 60 base [partInputRep] ∧
      (rowsToInsert 60 base [partInputRep]).length =
        ([partInputRep] : List PartInput).length ∧
      (∀ (i : Nat) (p : PartInput),
        ([partInputRep] : List PartInput).get? i = some p →
        ∃ r : ProjectPart, (rowsToInsert 60 base [partInputRep]).get? i = some r ∧
          r.project_id = 60 ∧
          r.order_index =
            (match p.order_index with | some n => n | none => (i : Int) + 1))) ∧
    ((putProject dbParts 5 60 pbodyEmpty).2.project_parts =
        dbParts.project_parts.filter (fun p => ! (p.project_id == 60)) ∧
      (putProject dbParts 5 60 pbodyEmpty).2.project_parts.filter
        (fun p => p.project_id == 60) = [] ∧
      ∃ proj : Project, (putProject dbParts 5 60 pbodyEmpty).1 = .ok 200 (proj, [])) ∧
    ((putProject dbParts 5 60 pbodyOmit).2.project_parts = dbParts.project_parts ∧
      ∃ (proj : Project) (parts : List ProjectPart),
        (putProject dbParts 5 60 pbodyOmit).1 = .ok 200 (proj, parts) ∧
        parts.Perm (dbParts.project_parts.filter (fun p => p.project_id == 60)) ∧
        parts.Pairwise (fun a b => a.order_index ≤ b.order_index)) :=
  ⟨(putProject_parts_replace dbParts 5 60 pbodyRep (by decide)).1
      [partInputRep] rfl (by decide),
   (putProject_parts_replace dbParts 5 60 pbodyEmpty (by decide)).2.1 rfl,
   (putProject_parts_replace dbParts 5 60 pbodyOmit (by decide)).2.2 rfl⟩

theorem buildPortfolioLists_spec (db : DB) (pid : Nat) :
    (buildPortfolioLists db pid).1.Pairwise
      (fun a b => a.order_index ≤ b.order_index) ∧
    List.Pairwise (fun a b => a.project.order_index ≤ b.project.order_index)
      (buildPortfolioLists db pid).2 ∧
    ∀ pw ∈ (buildPortfolioLists db pid).2,
      pw.parts.Pairwise (fun a b => a.order_index ≤ b.order_index) ∧
      (∀ part ∈ pw.parts, part.project_id = pw.project.id) ∧
      ((∀ part ∈ db.project_parts, part.project_id ≠ pw.project.id) →
        pw.parts = []) := by
  refine ⟨sortByKey_pairwise _ _, ?_, ?_⟩
  · exact List.pairwise_map.mpr (sortByKey_pairwise _ _)
  · intro pw hpw
    dsimp only [buildPortfolioLists, attachParts] at hpw
    rw [List.mem_map] at hpw
    obtain ⟨p, hp, rfl⟩ := hpw
    refine ⟨List.Pairwise.filter _ (sortByKey_pairwise _ _), ?_, ?_⟩
    · intro part hpart
      have := (List.mem_filter.mp hpart).2
      exact beq_iff_eq.mp this
    · intro hnone
      apply List.filter_eq_nil_iff.mpr
      intro a ha
      have hmem : a ∈ db.project_parts :=
        (List.mem_filter.mp ((sortByKey_mem _ _ _).mp ha)).1
      have := hnone a hmem
      simp [this]

/-- C5: both portfolio aggregations (`GET /api/me/portfolio` and
`GET /api/public/portfolios/:id`) return the experiences, the projects, and
each project's attached parts in non-decreasing `order_index`; every returned
project carries a parts list whose members all belong to it, and that list is
empty when the store holds no part for the project. -/
theorem portfolio_ordering (db : DB) (userId profileId : Nat) :
    ((myPortfolio db userId).1.experiences.Pairwise
        (fun a b => a.order_index ≤ b.order_index) ∧
      List.Pairwise (fun a b => a.project.order_index ≤ b.project.order_index)
        (myPortfolio db userId).1.projects ∧
      ∀ pw ∈ (myPortfolio db userId).1.projects,
        pw.parts.Pairwise (fun a b => a.order_index ≤ b.order_index) ∧
        (∀ part ∈ pw.parts, part.project_id = pw.project.id) ∧
        ((∀ part ∈ db.project_parts, part.project_id ≠ pw.project.id) →
          pw.parts = [])) ∧
    (∀ body : PortfolioBody, publicPortfolio db profileId = .ok 200 body →
      body.experiences.Pairwise (fun a b => a.order_index ≤ b.order_index) ∧
      List.Pairwise (fun a b => a.project.order_index ≤ b.project.order_index)
        body.projects ∧
      ∀ pw ∈ body.projects,
        pw.parts.Pairwise (fun a b => a.order_index ≤ b.order_index) ∧
        (∀ part ∈ pw.parts, part.project_id = pw.project.id) ∧
        ((∀ part ∈ db.project_parts, part.project_id ≠ pw.project.id) →
          pw.parts = [])) := by
  constructor
  · obtain ⟨h1, h2, h3⟩ := buildPortfolioLists_spec
      (getOrCreateProfileByUserId db userId).2
      (getOrCreateProfileByUserId db userId).1.id
    rw [(getOrCreate_tables db userId).2.2] at h3
    exact ⟨h1, h2, h3⟩
  · intro body hbody
    unfold publicPortfolio at hbody
    cases hf : db.profiles.find? (fun p => p.id == profileId) with
    | none =>
      rw [hf] at hbody
      exact absurd hbody (by simp)
    | some profile =>
      rw [hf] at hbody
      dsimp only at hbody
      injection hbody with h1 h2
      obtain ⟨g1, g2, g3⟩ := buildPortfolioLists_spec db profileId
      cases h2.symm
      exact ⟨g1, g2, g3⟩

/-- Profile row for the C5 witness. -/
def profAgg : Profile :=
  { id := 40, user_id := 9, first_name := "", last_name := "", about := "",
    avatar_url := none, is_featured := false }

/-- Experience with display order 2, listed first in the store. -/
def expA : Experience :=
  { id := 1, profile_id := 40, company := "C1", position := "P1",
    start_date := none, end_date := none, description := none, order_index := 2 }

/-- Experience with display order 1, listed second in the store. -/
def expB : Experience :=
  { id := 2, profile_id := 40, company := "C2", position := "P2",
    start_date := none, end_date := none, description := none, order_index := 1 }

/-- The single project of the C5 witness. -/
def projA : Project :=
  { id := 3, profile_id := 40, title := "T", subtitle := none,
    cover_image_url := none, order_index := 1 }

/-- Part with display order 2, listed first in the store. -/
def partA : ProjectPart :=
  { id := 5, project_id := 3, title := none, content := none, image_url := none,
    link_url := none, kind := none, order_index := 2 }

/-- Part with display order 1, listed second in the store. -/
def partB : ProjectPart :=
  { id := 6, project_id := 3, title := none, content := none, image_url := none,
    link_url := none, kind := none, order_index := 1 }

/-- Database for the C5 witness, with rows stored out of display order. -/
def dbAgg : DB :=
  { profiles := [profAgg], experiences := [expA, expB], projects := [projA],
    project_parts := [partA, partB], nextId := 100 }

/-- The aggregated response the public endpoint produces for `dbAgg`. -/
def bodyAgg : PortfolioBody :=
  { profile := profAgg, experiences := [expB, expA],
    projects := [{ project := projA, parts := [partB, partA] }] }

/-- Witness for C5: the aggregation of `dbAgg` sorts the out-of-order rows. -/
theorem portfolio_ordering_witness :
    bodyAgg.experiences.Pairwise (fun a b => a.order_index ≤ b.order_index) ∧
    List.Pairwise (fun a b => a.project.order_index ≤ b.project.order_index)
      bodyAgg.projects ∧
    ∀ pw ∈ bodyAgg.projects,
      pw.parts.Pairwise (fun a b => a.order_index ≤ b.order_index) ∧
      (∀ part ∈ pw.parts, part.project_id = pw.project.id) ∧
      ((∀ part ∈ dbAgg.project_parts, part.project_id ≠ pw.project.id) →
        pw.parts = []) :=
  (portfolio_ordering dbAgg 9 40).2 bodyAgg (by decide)
